import Mathlib

/-!
# Verification of the misconnect API server (src/server.js)

A shallow embedding of the Express/MongoDB route handlers of `server.js`.
Documents are association lists of JavaScript-like primitive values;
JavaScript truthiness, `Number()` and `String()` coercion, and the
`||` operator are modelled explicitly.  Each route handler becomes a pure
function from the (already fetched) collection contents — or a query
failure, modelled with `Except Unit` — to a response value.
-/

set_option autoImplicit false

namespace Misconnect

/-- A JavaScript primitive value as it appears in a stored document or a
request body.  `vNaN` is the not-a-number value; numbers are modelled as
rationals. -/
inductive Prim where
  | vNull
  | vBool (b : Bool)
  | vNum (q : ℚ)
  | vNaN
  | vStr (s : String)
  deriving DecidableEq, Repr

/-- A document: an association list from field names to primitive values.
A missing key models the JavaScript `undefined`. -/
abbrev Doc := List (String × Prim)

/-- Field lookup, `item.field`: the first binding of the key, `none` when
the field is absent (JavaScript `undefined`). -/
def Doc.get (d : Doc) (k : String) : Option Prim :=
  match d with
  | [] => none
  | (k', v) :: rest => if k' = k then some v else Doc.get rest k

/-- Overwrite (or append) a field, as a spread-with-override
`\x7b...item, k: v\x7d` does for the key `k`: the first binding of `k` is
replaced in place, and a missing key is appended at the end. -/
def Doc.set (d : Doc) (k : String) (v : Prim) : Doc :=
  match d with
  | [] => [(k, v)]
  | (k', v') :: rest => if k' = k then (k, v) :: rest else (k', v') :: Doc.set rest k v

/-- JavaScript truthiness of a possibly-undefined value: `undefined`,
`null`, `false`, `0`, `NaN` and the empty string are falsy. -/
def truthy : Option Prim → Bool
  | none => false
  | some .vNull => false
  | some (.vBool b) => b
  | some (.vNum q) => q ≠ 0
  | some .vNaN => false
  | some (.vStr s) => s ≠ ""

/-- The JavaScript `a || b` on possibly-undefined values: `a` when truthy,
otherwise `b`. -/
def jsOr (a b : Option Prim) : Option Prim :=
  if truthy a then a else b

/-- One decimal digit. -/
def digit? (c : Char) : Option Nat :=
  if c.isDigit then some (c.toNat - 48) else none

/-- Value of a nonempty all-digit run; `none` if any character is not a
digit. -/
def digitsVal (cs : List Char) : Option Nat :=
  cs.foldl
    (fun acc c =>
      match acc, digit? c with
      | some a, some d => some (a * 10 + d)
      | _, _ => none)
    (some 0)

/-- Whitespace characters trimmed by `Number()`. -/
def isWs (c : Char) : Bool :=
  c = ' ' ∨ c = '\t' ∨ c = '\n' ∨ c = '\r'

/-- Trim leading and trailing whitespace from a character list. -/
def trimWs (cs : List Char) : List Char :=
  ((cs.dropWhile isWs).reverse.dropWhile isWs).reverse

/-- Unsigned decimal literal `digits [. digits]`, with at least one digit
on one side of the point; `none` models NaN. -/
def parseUnsigned (cs : List Char) : Option ℚ :=
  match cs.span (fun c => c.isDigit) with
  | (intPart, rest) =>
    match rest with
    | [] =>
      if intPart = [] then none
      else (digitsVal intPart).map (fun n => (n : ℚ))
    | '.' :: fracPart =>
      if fracPart.all (fun c => c.isDigit) ∧ (intPart ≠ [] ∨ fracPart ≠ []) then
        match digitsVal intPart, digitsVal fracPart with
        | some i, some f => some ((i : ℚ) + (f : ℚ) / ((10 : ℚ) ^ fracPart.length))
        | _, _ => none
      else none
    | _ => none

/-- JavaScript `Number(string)`: whitespace is trimmed, the empty string is
`0`, a signed decimal literal is its value, anything else is NaN
(`none`). -/
def parseJsNumber (s : String) : Option ℚ :=
  match trimWs s.toList with
  | [] => some 0
  | '-' :: rest => (parseUnsigned rest).map (fun q => -q)
  | '+' :: rest => parseUnsigned rest
  | cs => parseUnsigned cs

/-- JavaScript `Number(x)` on a possibly-undefined value; `none` models
NaN. -/
def toNumber : Option Prim → Option ℚ
  | none => none
  | some .vNull => some 0
  | some (.vBool b) => some (if b then 1 else 0)
  | some (.vNum q) => some q
  | some .vNaN => none
  | some (.vStr s) => parseJsNumber s

/-- The idiom `Number(x) || 0`: NaN becomes `0` (and `0` stays `0`). -/
def numOr0 (v : Option Prim) : ℚ :=
  (toNumber v).getD 0

/-- JavaScript `String(p)` on a primitive value.  A non-integer rational is
rendered as `num/den` (the embedding does not reproduce decimal float
formatting; no claim depends on it). -/
def primToString : Prim → String
  | .vNull => "null"
  | .vBool b => if b then "true" else "false"
  | .vNum q => if q.den = 1 then toString q.num else toString q.num ++ "/" ++ toString q.den
  | .vNaN => "NaN"
  | .vStr s => s

/-- The idiom `String(x || "")`: the empty string for a falsy or missing
field, otherwise the string coercion of the value. -/
def strOrEmpty : Option Prim → String
  | none => ""
  | some p => if truthy (some p) then primToString p else ""

/-! ## POST /api/login -/

/-- The response of `POST /api/login`: the success body carries the three
fields of the `user` object (`username`, `role`, `name`), in order. -/
inductive LoginResponse where
  | success (username role name : Option Prim)
  | invalid
  | serverError
  deriving DecidableEq, Repr

/-- HTTP status of a login response: 200 on match, 401 on no match, 500 on
query failure. -/
def LoginResponse.status : LoginResponse → Nat
  | .success _ _ _ => 200
  | .invalid => 401
  | .serverError => 500

/-- The `message` field of a login response body, absent on success. -/
def LoginResponse.message : LoginResponse → Option String
  | .success _ _ _ => none
  | .invalid => some "Invalid credentials"
  | .serverError => some "Server error"

/-- The `success` flag of a login response body. -/
def LoginResponse.successFlag : LoginResponse → Bool
  | .success _ _ _ => true
  | .invalid => false
  | .serverError => false

/-- The query `findOne(\x7busername, password\x7d)` on the `UsersMIS` collection: the
first document whose `username` and `password` fields both exist and equal
the supplied values. -/
def findOneCred (docs : List Doc) (username password : Prim) : Option Doc :=
  docs.find? (fun d => Doc.get d "username" = some username ∧ Doc.get d "password" = some password)

/-- The `POST /api/login` handler.  The first argument is the outcome of
the `UsersMIS` query (`Except.error` when the query throws, in which case
the `catch` block answers 500). -/
def loginHandler (db : Except Unit (List Doc)) (username password : Prim) : LoginResponse :=
  match db with
  | .error _ => .serverError
  | .ok docs =>
    match findOneCred docs username password with
    | some user =>
      .success (Doc.get user "username")
        (jsOr (Doc.get user "role") (some (.vStr "user")))
        (jsOr (Doc.get user "name") (Doc.get user "username"))
    | none => .invalid

/-! ## GET /api/leverages -/

/-- The `byEntity` accumulator object: an association list from entity key
to running sum. -/
abbrev EntityMap := List (String × ℚ)

/-- Property read `byEntity[k]`, `none` when the key is absent. -/
def EntityMap.get (m : EntityMap) (k : String) : Option ℚ :=
  match m with
  | [] => none
  | (k', v) :: rest => if k' = k then some v else EntityMap.get rest k

/-- The statement `byEntity[k] = (byEntity[k] || 0) + q`: the existing
entry is increased in place, a new key is appended with value `q`. -/
def EntityMap.add (m : EntityMap) (k : String) (q : ℚ) : EntityMap :=
  match m with
  | [] => [(k, q)]
  | (k', v) :: rest => if k' = k then (k, v + q) :: rest else (k', v) :: EntityMap.add rest k q

/-- The expression `item.Entity || "Unknown"` (the code uses a string literal), as a primitive value. -/
def entityOf (item : Doc) : Prim :=
  match jsOr (Doc.get item "Entity") (some (.vStr "Unknown")) with
  | some p => p
  | none => .vStr "Unknown"

/-- The object property key the entity value is used as (JavaScript
coerces a non-string key to string). -/
def entKey (item : Doc) : String :=
  primToString (entityOf item)

/-- The coerced amount of a leverage document, `Number(item.Amount) || 0`. -/
def amountOf (item : Doc) : ℚ :=
  numOr0 (Doc.get item "Amount")

/-- The accumulator of the `reduce` in the leverages handler. -/
structure LeverageStats where
  byEntity : EntityMap
  totalAmount : ℚ
  deriving DecidableEq, Repr

/-- One step of the `reduce`: add the coerced amount to the entity bucket
and to the grand total. -/
def leverageStep (acc : LeverageStats) (item : Doc) : LeverageStats :=
  { byEntity := acc.byEntity.add (entKey item) (amountOf item)
    totalAmount := acc.totalAmount + amountOf item }

/-- The fold `data.reduce(..., \x7bbyEntity: \x7b\x7d, totalAmount: 0\x7d)` over the
`Leverages` collection contents. -/
def leverageStats (docs : List Doc) : LeverageStats :=
  docs.foldl leverageStep { byEntity := [], totalAmount := 0 }

/-- The response of the data routes: `\x7bsuccess:true, data\x7d`, or an
HTTP 500 body `\x7bsuccess:false, message\x7d`. -/
inductive DataResponse (α : Type) where
  | success (data : α)
  | serverError (message : String)
  deriving DecidableEq, Repr

/-- HTTP status of a data route response. -/
def DataResponse.status {α : Type} : DataResponse α → Nat
  | .success _ => 200
  | .serverError _ => 500

/-- The `GET /api/leverages` handler. -/
def leveragesHandler (db : Except Unit (List Doc)) : DataResponse LeverageStats :=
  match db with
  | .error _ => .serverError "Error fetching data"
  | .ok docs => .success (leverageStats docs)

/-! ## GET /api/participants, /api/a2f, /api/a2m -/

/-- Overwrite each field of `fields` in `d` with a value computed by `g`
from the field name — the shape of the spread-with-override object
literals of the cleaning `map`s. -/
def setFields (fields : List String) (g : String → Prim) (d : Doc) : Doc :=
  fields.foldl (fun d' f => Doc.set d' f (g f)) d

/-- The six string-coerced fields of the participants route. -/
def participantFields : List String :=
  ["ID", "ParticipantNAME", "ParticipantGENDER", "WorkingSectorP4P",
   "pAddressDISTRICT", "EthnicCultureBACKGROUND"]

/-- One document of the participants `cleanedData` map:
`\x7b...p, ID: String(p.ID || ""), ...\x7d` (the code uses single-quoted string literals). -/
def cleanParticipantDoc (p : Doc) : Doc :=
  setFields participantFields (fun f => .vStr (strOrEmpty (Doc.get p f))) p

/-- The `GET /api/participants` handler. -/
def participantsHandler (db : Except Unit (List Doc)) : DataResponse (List Doc) :=
  match db with
  | .error _ => .serverError "Error fetching data"
  | .ok docs => .success (docs.map cleanParticipantDoc)

/-- The eight number-coerced fields of the `/api/a2f` route. -/
def a2fFields : List String :=
  ["ParticipantID", "ParticipantAGE", "LoanAmountAPPLIED", "LoanAmountAPPROVED",
   "LoanPERIOD", "InterestRATE", "InsurancePERIOD", "InsuranceCOVERAGE"]

/-- One document of the a2f `cleanedData` map:
`\x7b...item, ParticipantID: Number(item.ParticipantID) || 0, ...\x7d`. -/
def cleanA2FDoc (item : Doc) : Doc :=
  setFields a2fFields (fun f => .vNum (numOr0 (Doc.get item f))) item

/-- The `GET /api/a2f` handler. -/
def a2fHandler (db : Except Unit (List Doc)) : DataResponse (List Doc) :=
  match db with
  | .error _ => .serverError "Error fetching data"
  | .ok docs => .success (docs.map cleanA2FDoc)

/-- The six number-coerced fields of the `/api/a2m` route. -/
def a2mFields : List String :=
  ["ParticipantID", "ParticipantAGE", "MarginalizedSTATUS", "EntityPHONE",
   "QtySOLD", "AmountSOLD"]

/-- One document of the a2m `cleanedData` map. -/
def cleanA2MDoc (item : Doc) : Doc :=
  setFields a2mFields (fun f => .vNum (numOr0 (Doc.get item f))) item

/-- The `GET /api/a2m` handler. -/
def a2mHandler (db : Except Unit (List Doc)) : DataResponse (List Doc) :=
  match db with
  | .error _ => .serverError "Error fetching data"
  | .ok docs => .success (docs.map cleanA2MDoc)

/-! ## GET /api/productivity -/

/-- The accumulator of the productivity `reduce`: four parallel arrays.
Elements are possibly-undefined raw field values (no coercion is applied
by the handler). -/
structure ProductivityData where
  sectors : List (Option Prim)
  baseline : List (Option Prim)
  earlyassessment : List (Option Prim)
  growth : List (Option Prim)
  deriving DecidableEq, Repr

/-- One step of the productivity `reduce`: push the four fields of the
item onto the four arrays. -/
def productivityStep (acc : ProductivityData) (item : Doc) : ProductivityData :=
  { sectors := acc.sectors ++ [Doc.get item "Sector"]
    baseline := acc.baseline ++ [Doc.get item "BaseLine"]
    earlyassessment := acc.earlyassessment ++ [Doc.get item "Early Productivity Assessment"]
    growth := acc.growth ++ [Doc.get item "% Growth"] }

/-- The productivity `reduce` with the empty-arrays initial accumulator. -/
def productivityData (docs : List Doc) : ProductivityData :=
  docs.foldl productivityStep ⟨[], [], [], []⟩

/-- The `GET /api/productivity` handler. -/
def productivityHandler (db : Except Unit (List Doc)) : DataResponse ProductivityData :=
  match db with
  | .error _ => .serverError "Error fetching data"
  | .ok docs => .success (productivityData docs)

/-! ## GET /api/market-surveys -/

/-- The outcomes of the six concurrent `countDocuments()` queries, one per
sector collection; a collection is modelled by its document list, an
`Except.error` by a rejected query. -/
structure SurveyDB where
  aqua : Except Unit (List Doc)
  cattle : Except Unit (List Doc)
  fh : Except Unit (List Doc)
  maize : Except Unit (List Doc)
  poultry : Except Unit (List Doc)
  qsr : Except Unit (List Doc)

/-- The success body of `/api/market-surveys`: the six counts. -/
structure SurveyCounts where
  aqua : Nat
  cattle : Nat
  fh : Nat
  maize : Nat
  poultry : Nat
  qsr : Nat
  deriving DecidableEq, Repr

/-- The `GET /api/market-surveys` handler: `Promise.all` resolves only if
all six queries succeed; one rejection takes the `catch` branch (a single
500, no partial counts). -/
def marketSurveysHandler (db : SurveyDB) : DataResponse SurveyCounts :=
  match db.aqua, db.cattle, db.fh, db.maize, db.poultry, db.qsr with
  | .ok a, .ok c, .ok f, .ok m, .ok p, .ok q =>
    .success ⟨a.length, c.length, f.length, m.length, p.length, q.length⟩
  | _, _, _, _, _, _ => .serverError "Error fetching data"

/-! ## GET /api/collections/:collectionName -/

/-- The whole document store: named collections with their contents. -/
abbrev Store := List (String × List Doc)

/-- The contents of a named collection, when it exists. -/
def lookupColl (store : Store) (name : String) : Option (List Doc) :=
  match store with
  | [] => none
  | (n, docs) :: rest => if n = name then some docs else lookupColl rest name

/-- The query `db.collection(name).find(\x7b\x7d).toArray()`: a collection absent
from the store yields the empty array (MongoDB does not error on an
unknown collection name). -/
def findAll (store : Store) (name : String) : List Doc :=
  (lookupColl store name).getD []

/-- The allow-list defined at the bottom of `server.js` — defined, but
never consulted by any route. -/
def VALID_COLLECTIONS : List String :=
  ["ParticipantPROFILE", "DealerPROFILE", "CooperativePROFILE",
   "AgrovetPROFILE", "A2F", "A2M"]

/-- The `GET /api/collections/:collectionName` handler: the caller-supplied
name is dispatched directly; no check against `VALID_COLLECTIONS` (or
anything else) occurs. -/
def collectionsByNameHandler (db : Except Unit Store) (name : String) : DataResponse (List Doc) :=
  match db with
  | .error _ => .serverError "Error fetching data"
  | .ok store => .success (findAll store name)

/-- The `data` array length of a data-route response, `none` on error. -/
def dataLength {α : Type} : DataResponse (List α) → Option Nat
  | .success d => some d.length
  | .serverError _ => none

/-! ## Helper lemmas -/

theorem Doc.get_set_self (d : Doc) (k : String) (v : Prim) :
    Doc.get (Doc.set d k v) k = some v := by
  induction d with
  | nil => simp [Doc.set, Doc.get]
  | cons kv rest ih =>
    obtain ⟨k', v'⟩ := kv
    by_cases h : k' = k <;> simp [Doc.set, Doc.get, h, ih]

theorem Doc.get_set_ne (d : Doc) (k k' : String) (v : Prim) (h : k' ≠ k) :
    Doc.get (Doc.set d k v) k' = Doc.get d k' := by
  induction d with
  | nil => simp [Doc.set, Doc.get, Ne.symm h]
  | cons kv rest ih =>
    obtain ⟨k₀, v₀⟩ := kv
    by_cases h₀ : k₀ = k
    · subst h₀
      simp [Doc.set, Doc.get, Ne.symm h, h]
    · simp only [Doc.set, if_neg h₀]
      by_cases h₁ : k₀ = k' <;> simp [Doc.get, h₁, ih]

theorem get_setFields_not_mem (fields : List String) (g : String → Prim) (d : Doc)
    (k : String) (hk : k ∉ fields) :
    Doc.get (setFields fields g d) k = Doc.get d k := by
  induction fields generalizing d with
  | nil => simp [setFields]
  | cons f rest ih =>
    simp only [List.mem_cons, not_or] at hk
    simpa [setFields, List.foldl_cons] using
      (ih (Doc.set d f (g f)) hk.2).trans (Doc.get_set_ne d f k (g f) hk.1)

theorem get_setFields_mem (fields : List String) (g : String → Prim) (d : Doc)
    (k : String) (hnd : fields.Nodup) (hk : k ∈ fields) :
    Doc.get (setFields fields g d) k = some (g k) := by
  induction fields generalizing d with
  | nil => simp at hk
  | cons f rest ih =>
    rw [List.nodup_cons] at hnd
    rcases List.mem_cons.mp hk with h | h
    · subst h
      simpa [setFields, List.foldl_cons] using
        (get_setFields_not_mem rest g (Doc.set d k (g k)) k hnd.1).trans
          (Doc.get_set_self d k (g k))
    · simpa [setFields, List.foldl_cons] using ih (Doc.set d f (g f)) hnd.2 h

theorem EntityMap.get_add_self (m : EntityMap) (k : String) (q : ℚ) :
    EntityMap.get (EntityMap.add m k q) k = some ((EntityMap.get m k).getD 0 + q) := by
  induction m with
  | nil => simp [EntityMap.add, EntityMap.get]
  | cons kv rest ih =>
    obtain ⟨k', v⟩ := kv
    by_cases h : k' = k <;> simp [EntityMap.add, EntityMap.get, h, ih]

theorem EntityMap.get_add_ne (m : EntityMap) (k k' : String) (q : ℚ) (h : k' ≠ k) :
    EntityMap.get (EntityMap.add m k q) k' = EntityMap.get m k' := by
  induction m with
  | nil => simp [EntityMap.add, EntityMap.get, Ne.symm h]
  | cons kv rest ih =>
    obtain ⟨k₀, v⟩ := kv
    by_cases h₀ : k₀ = k
    · subst h₀
      simp [EntityMap.add, EntityMap.get, Ne.symm h, h]
    · simp only [EntityMap.add, if_neg h₀]
      by_cases h₁ : k₀ = k' <;> simp [EntityMap.get, h₁, ih]

theorem leverage_foldl_total (docs : List Doc) (acc : LeverageStats) :
    (docs.foldl leverageStep acc).totalAmount
      = acc.totalAmount + (docs.map amountOf).sum := by
  induction docs generalizing acc with
  | nil => simp
  | cons item rest ih =>
    simp [List.foldl_cons, ih, leverageStep, add_assoc]

theorem leverage_foldl_byEntity (docs : List Doc) (acc : LeverageStats) (k : String) :
    (EntityMap.get (docs.foldl leverageStep acc).byEntity k).getD 0
      = (EntityMap.get acc.byEntity k).getD 0
        + ((docs.filter (fun d => entKey d = k)).map amountOf).sum := by
  induction docs generalizing acc with
  | nil => simp
  | cons item rest ih =>
    rw [List.foldl_cons, ih]
    by_cases h : entKey item = k
    · subst h
      simp [leverageStep, EntityMap.get_add_self, add_assoc]
    · rw [List.filter_cons_of_neg (by simpa using h)]
      simp [leverageStep, EntityMap.get_add_ne _ _ _ _ (Ne.symm h)]

theorem productivity_foldl_eq (docs : List Doc) (acc : ProductivityData) :
    docs.foldl productivityStep acc
      = ⟨acc.sectors ++ docs.map (fun d => Doc.get d "Sector"),
         acc.baseline ++ docs.map (fun d => Doc.get d "BaseLine"),
         acc.earlyassessment ++ docs.map (fun d => Doc.get d "Early Productivity Assessment"),
         acc.growth ++ docs.map (fun d => Doc.get d "% Growth")⟩ := by
  induction docs generalizing acc with
  | nil => simp
  | cons item rest ih =>
    simp [List.foldl_cons, ih, productivityStep]

theorem findOneCred_fields (docs : List Doc) (u p : Prim) (d : Doc)
    (h : findOneCred docs u p = some d) :
    Doc.get d "username" = some u ∧ Doc.get d "password" = some p := by
  have := List.find?_some h
  simpa using this

/-! ## Claim theorems -/

/-- C1 (amended): for every username/password pair with a matching
credential document, POST /api/login answers 200 with
`success:true` and a user object whose `username` is the supplied
username, whose `role` is the stored role field when present and truthy
and the string `user` when absent or falsy, and whose `name` is the
stored name field when present and truthy and the supplied username
otherwise. -/
theorem login_success_shape (docs : List Doc) (u p : Prim) (d : Doc)
    (h : findOneCred docs u p = some d) :
    ∃ role name,
      loginHandler (.ok docs) u p = .success (some u) role name ∧
      (loginHandler (.ok docs) u p).status = 200 ∧
      (loginHandler (.ok docs) u p).successFlag = true ∧
      (truthy (Doc.get d "role") = true → role = Doc.get d "role") ∧
      (truthy (Doc.get d "role") = false → role = some (.vStr "user")) ∧
      (truthy (Doc.get d "name") = true → name = Doc.get d "name") ∧
      (truthy (Doc.get d "name") = false → name = some u) := by
  obtain ⟨hu, hp⟩ := findOneCred_fields docs u p d h
  refine ⟨jsOr (Doc.get d "role") (some (.vStr "user")),
          jsOr (Doc.get d "name") (Doc.get d "username"), ?_, ?_, ?_, ?_, ?_, ?_, ?_⟩
  · simp [loginHandler, h, hu]
  · simp [loginHandler, h, LoginResponse.status]
  · simp [loginHandler, h, LoginResponse.successFlag]
  · intro ht; simp [jsOr, ht]
  · intro hf; simp [jsOr, hf]
  · intro ht; simp [jsOr, ht]
  · intro hf; simp [jsOr, hf, hu]

/-- Witness for C1: a credential document with truthy role and name fields
logs in with exactly the stored role and name. -/
theorem login_success_shape_witness :
    loginHandler
        (.ok [[("username", Prim.vStr "bob"), ("password", Prim.vStr "pw"),
               ("role", Prim.vStr "admin"), ("name", Prim.vStr "Bob")]])
        (.vStr "bob") (.vStr "pw")
      = .success (some (.vStr "bob")) (some (.vStr "admin")) (some (.vStr "Bob")) := by
  obtain ⟨role, name, heq, -, -, hrt, -, hnt, -⟩ :=
    login_success_shape
      [[("username", Prim.vStr "bob"), ("password", Prim.vStr "pw"),
        ("role", Prim.vStr "admin"), ("name", Prim.vStr "Bob")]]
      (.vStr "bob") (.vStr "pw")
      [("username", Prim.vStr "bob"), ("password", Prim.vStr "pw"),
       ("role", Prim.vStr "admin"), ("name", Prim.vStr "Bob")]
      (by decide)
  rw [heq, hrt (by decide), hnt (by decide)]
  decide

/-- Counterexample to C1 as stated: a credential document whose role field
is present but holds the empty string (falsy) yields role `user`, not the
stored role, so the stored role is not always returned when the field is
present. -/
theorem login_role_fallback_counterexample :
    Doc.get [("username", Prim.vStr "alice"), ("password", Prim.vStr "pw"),
             ("role", Prim.vStr "")] "role" = some (.vStr "") ∧
    loginHandler
        (.ok [[("username", Prim.vStr "alice"), ("password", Prim.vStr "pw"),
               ("role", Prim.vStr "")]])
        (.vStr "alice") (.vStr "pw")
      = .success (some (.vStr "alice")) (some (.vStr "user")) (some (.vStr "alice")) ∧
    loginHandler
        (.ok [[("username", Prim.vStr "alice"), ("password", Prim.vStr "pw"),
               ("role", Prim.vStr "")]])
        (.vStr "alice") (.vStr "pw")
      ≠ .success (some (.vStr "alice")) (some (.vStr "")) (some (.vStr "alice")) := by
  refine ⟨by decide, by decide, by decide⟩

/-- C2: a username/password pair with no exact-match credential document
gets HTTP 401, `success:false` and the message `Invalid credentials`; a
failed credential query gets HTTP 500, `success:false` and the message
`Server error`. -/
theorem login_no_match_and_error (docs : List Doc) (u p : Prim)
    (h : findOneCred docs u p = none) :
    loginHandler (.ok docs) u p = .invalid ∧
    (loginHandler (.ok docs) u p).status = 401 ∧
    (loginHandler (.ok docs) u p).successFlag = false ∧
    (loginHandler (.ok docs) u p).message = some "Invalid credentials" ∧
    loginHandler (.error ()) u p = .serverError ∧
    (loginHandler (.error ()) u p).status = 500 ∧
    (loginHandler (.error ()) u p).successFlag = false ∧
    (loginHandler (.error ()) u p).message = some "Server error" := by
  simp [loginHandler, h, LoginResponse.status, LoginResponse.message, LoginResponse.successFlag]

/-- Witness for C2: a wrong password against a one-document collection is
rejected with 401, and a failed query answers 500. -/
theorem login_no_match_and_error_witness :
    loginHandler (.ok [[("username", Prim.vStr "alice"), ("password", Prim.vStr "pw")]])
        (.vStr "alice") (.vStr "wrong") = .invalid ∧
    (loginHandler (Except.error ()) (Prim.vStr "alice") (.vStr "wrong")).status = 500 :=
  ⟨(login_no_match_and_error [[("username", Prim.vStr "alice"), ("password", Prim.vStr "pw")]]
      (.vStr "alice") (.vStr "wrong") (by decide)).1,
   (login_no_match_and_error [[("username", Prim.vStr "alice"), ("password", Prim.vStr "pw")]]
      (.vStr "alice") (.vStr "wrong") (by decide)).2.2.2.2.2.1⟩

/-- C3 (amended): GET /api/leverages returns a totalAmount equal to the
sum of the coerced Amount fields over all documents (non-numeric amounts
contributing 0), and for every entity name a byEntity subtotal equal to
that same coerced sum restricted to the documents whose computed entity
key — the Entity field when truthy, coerced to a property-key string, and
`Unknown` when the field is absent or falsy — equals that name. -/
theorem leverages_sums (docs : List Doc) :
    leveragesHandler (.ok docs) = .success (leverageStats docs) ∧
    (leverageStats docs).totalAmount = (docs.map amountOf).sum ∧
    ∀ k : String,
      (EntityMap.get (leverageStats docs).byEntity k).getD 0
        = ((docs.filter (fun d => entKey d = k)).map amountOf).sum := by
  refine ⟨rfl, ?_, ?_⟩
  · simpa [leverageStats] using leverage_foldl_total docs ⟨[], 0⟩
  · intro k
    simpa [leverageStats, EntityMap.get] using leverage_foldl_byEntity docs ⟨[], 0⟩ k

/-- Counterexample to C3 as stated: a single document with a 5 amount and
no Entity field gives the byEntity key `Unknown` the subtotal 5, yet no
document has an Entity field equal to `Unknown`, so the subtotal of
`Unknown` differs from the sum restricted to documents whose Entity field
equals `Unknown`. -/
theorem leverages_entity_restriction_counterexample :
    (EntityMap.get (leverageStats [[("Amount", Prim.vNum 5)]]).byEntity "Unknown").getD 0 = 5 ∧
    ((([[("Amount", Prim.vNum 5)]] : List Doc).filter
        (fun d => Doc.get d "Entity" = some (.vStr "Unknown"))).map amountOf).sum = 0 ∧
    (5 : ℚ) ≠ 0 := by
  refine ⟨?_, ?_, by norm_num⟩
  · simp [leverageStats, leverageStep, amountOf, numOr0, toNumber, Doc.get, entKey,
      entityOf, jsOr, truthy, EntityMap.add, EntityMap.get, primToString]
  · simp [Doc.get]

/-- C4: in the a2f and a2m cleaned documents, every designated field that
is missing or non-numeric (its `Number()` coercion is NaN) comes out as
the number 0, and every designated field holding a valid numeric string
comes out as the corresponding number. -/
theorem a2f_a2m_numeric_coercion (docs : List Doc) (item : Doc) (k : String) :
    a2fHandler (.ok docs) = .success (docs.map cleanA2FDoc) ∧
    a2mHandler (.ok docs) = .success (docs.map cleanA2MDoc) ∧
    (k ∈ a2fFields →
      ((Doc.get item k = none ∨ toNumber (Doc.get item k) = none) →
        Doc.get (cleanA2FDoc item) k = some (.vNum 0)) ∧
      (∀ s q, Doc.get item k = some (.vStr s) → parseJsNumber s = some q →
        Doc.get (cleanA2FDoc item) k = some (.vNum q))) ∧
    (k ∈ a2mFields →
      ((Doc.get item k = none ∨ toNumber (Doc.get item k) = none) →
        Doc.get (cleanA2MDoc item) k = some (.vNum 0)) ∧
      (∀ s q, Doc.get item k = some (.vStr s) → parseJsNumber s = some q →
        Doc.get (cleanA2MDoc item) k = some (.vNum q))) := by
  refine ⟨rfl, rfl, ?_, ?_⟩
  · intro hk
    have hget : Doc.get (cleanA2FDoc item) k = some (.vNum (numOr0 (Doc.get item k))) :=
      get_setFields_mem a2fFields (fun f => .vNum (numOr0 (Doc.get item f))) item k
        (by decide) hk
    constructor
    · rintro (hm | hnan)
      · rw [hget]; simp [numOr0, hm, toNumber]
      · rw [hget]; simp [numOr0, hnan]
    · intro s q hs hq
      rw [hget]; simp [numOr0, hs, toNumber, hq]
  · intro hk
    have hget : Doc.get (cleanA2MDoc item) k = some (.vNum (numOr0 (Doc.get item k))) :=
      get_setFields_mem a2mFields (fun f => .vNum (numOr0 (Doc.get item f))) item k
        (by decide) hk
    constructor
    · rintro (hm | hnan)
      · rw [hget]; simp [numOr0, hm, toNumber]
      · rw [hget]; simp [numOr0, hnan]
    · intro s q hs hq
      rw [hget]; simp [numOr0, hs, toNumber, hq]

/-- Witness for C4: a non-numeric ParticipantAGE becomes 0 in a2f, and the
numeric string 30 in QtySOLD becomes the number 30 in a2m. -/
theorem a2f_a2m_numeric_coercion_witness :
    Doc.get (cleanA2FDoc [("ParticipantAGE", Prim.vStr "abc")]) "ParticipantAGE"
      = some (.vNum 0) ∧
    Doc.get (cleanA2MDoc [("QtySOLD", Prim.vStr "30")]) "QtySOLD"
      = some (.vNum 30) :=
  ⟨((a2f_a2m_numeric_coercion [] [("ParticipantAGE", Prim.vStr "abc")] "ParticipantAGE").2.2.1
      (by decide)).1 (Or.inr (by decide)),
   ((a2f_a2m_numeric_coercion [] [("QtySOLD", Prim.vStr "30")] "QtySOLD").2.2.2
      (by decide)).2 "30" 30 (by decide) (by decide)⟩

/-- C5: GET /api/productivity returns four parallel arrays of length
equal to the number of documents, the i-th entries taken from the i-th
document (stated as equality with the four field projections), and the
two-document example of the spec evaluates exactly as claimed. -/
theorem productivity_transpose (docs : List Doc) :
    productivityHandler (.ok docs) = .success (productivityData docs) ∧
    (productivityData docs).sectors = docs.map (fun d => Doc.get d "Sector") ∧
    (productivityData docs).baseline = docs.map (fun d => Doc.get d "BaseLine") ∧
    (productivityData docs).earlyassessment
      = docs.map (fun d => Doc.get d "Early Productivity Assessment") ∧
    (productivityData docs).growth = docs.map (fun d => Doc.get d "% Growth") ∧
    (productivityData docs).sectors.length = docs.length ∧
    (productivityData docs).baseline.length = docs.length ∧
    (productivityData docs).earlyassessment.length = docs.length ∧
    (productivityData docs).growth.length = docs.length ∧
    productivityData
        [[("Sector", .vStr "Maize"), ("BaseLine", .vNum 10),
          ("Early Productivity Assessment", .vNum 12), ("% Growth", .vNum 20)],
         [("Sector", .vStr "Poultry"), ("BaseLine", .vNum 5),
          ("Early Productivity Assessment", .vNum 5), ("% Growth", .vNum 0)]]
      = ⟨[some (.vStr "Maize"), some (.vStr "Poultry")],
         [some (.vNum 10), some (.vNum 5)],
         [some (.vNum 12), some (.vNum 5)],
         [some (.vNum 20), some (.vNum 0)]⟩ := by
  have h := productivity_foldl_eq docs ⟨[], [], [], []⟩
  refine ⟨rfl, ?_, ?_, ?_, ?_, ?_, ?_, ?_, ?_, by decide⟩ <;>
    simp [productivityData, h]

/-- C6: GET /api/market-surveys returns the six collection document
counts (0 for an empty collection), and if any of the six count queries
fails the route answers a single 500 with no partial counts. -/
theorem market_surveys_counts :
    (∀ a c f m p q : List Doc,
      marketSurveysHandler ⟨.ok a, .ok c, .ok f, .ok m, .ok p, .ok q⟩
        = .success ⟨a.length, c.length, f.length, m.length, p.length, q.length⟩) ∧
    marketSurveysHandler ⟨.ok [], .ok [], .ok [], .ok [], .ok [], .ok []⟩
      = .success ⟨0, 0, 0, 0, 0, 0⟩ ∧
    (∀ db : SurveyDB,
      (db.aqua = .error () ∨ db.cattle = .error () ∨ db.fh = .error () ∨
       db.maize = .error () ∨ db.poultry = .error () ∨ db.qsr = .error ()) →
      marketSurveysHandler db = .serverError "Error fetching data") := by
  refine ⟨fun a c f m p q => rfl, rfl, ?_⟩
  intro db h
  obtain ⟨a, c, f, m, p, q⟩ := db
  simp only at h
  cases a <;> cases c <;> cases f <;> cases m <;> cases p <;> cases q <;>
    simp_all [marketSurveysHandler]

/-- Witness for C6: one failing count query makes the whole route answer
500. -/
theorem market_surveys_counts_witness :
    marketSurveysHandler ⟨.error (), .ok [], .ok [], .ok [], .ok [], .ok []⟩
      = .serverError "Error fetching data" :=
  market_surveys_counts.2.2 ⟨.error (), .ok [], .ok [], .ok [], .ok [], .ok []⟩
    (Or.inl rfl)

/-- C7: for every existing collection name, GET /api/collections/:name
answers `success:true` with the full document array (length equal to the
document count), and does so for any caller-supplied name — in particular
also for names outside VALID_COLLECTIONS, which no route consults. -/
theorem collections_by_name (store : Store) (name : String) (docs : List Doc)
    (h : lookupColl store name = some docs) :
    collectionsByNameHandler (.ok store) name = .success docs ∧
    dataLength (collectionsByNameHandler (.ok store) name) = some docs.length ∧
    (name ∉ VALID_COLLECTIONS → collectionsByNameHandler (.ok store) name = .success docs) := by
  refine ⟨?_, ?_, fun _ => ?_⟩ <;> simp [collectionsByNameHandler, findAll, h, dataLength]

/-- Witness for C7: the store collection named UsersMIS, which is not in
VALID_COLLECTIONS, is served with its two documents. -/
theorem collections_by_name_witness :
    collectionsByNameHandler (.ok [("UsersMIS", [[], []])]) "UsersMIS" = .success [[], []] ∧
    dataLength (collectionsByNameHandler (.ok [("UsersMIS", [[], []])]) "UsersMIS") = some 2 :=
  ⟨(collections_by_name [("UsersMIS", [[], []])] "UsersMIS" [[], []] (by decide)).2.2
      (by decide),
   (collections_by_name [("UsersMIS", [[], []])] "UsersMIS" [[], []] (by decide)).2.1⟩

/-- C8 (amended): in the participants cleaned documents, each of the six
designated fields holds a string: the string coercion of the stored value
when the field is present and truthy, and the empty string when the field
is absent or falsy. -/
theorem participants_string_coercion (docs : List Doc) (item : Doc) (k : String)
    (hk : k ∈ participantFields) :
    participantsHandler (.ok docs) = .success (docs.map cleanParticipantDoc) ∧
    (truthy (Doc.get item k) = true →
      ∃ p, Doc.get item k = some p ∧
        Doc.get (cleanParticipantDoc item) k = some (.vStr (primToString p))) ∧
    (truthy (Doc.get item k) = false →
      Doc.get (cleanParticipantDoc item) k = some (.vStr "")) := by
  have hget : Doc.get (cleanParticipantDoc item) k
      = some (.vStr (strOrEmpty (Doc.get item k))) :=
    get_setFields_mem participantFields (fun f => .vStr (strOrEmpty (Doc.get item f))) item k
      (by decide) hk
  refine ⟨rfl, ?_, ?_⟩
  · intro ht
    match hv : Doc.get item k with
    | none => rw [hv] at ht; simp [truthy] at ht
    | some p =>
      refine ⟨p, rfl, ?_⟩
      rw [hv] at ht
      rw [hget, hv]
      simp [strOrEmpty, ht]
  · intro hf
    match hv : Doc.get item k with
    | none => rw [hget, hv]; simp [strOrEmpty]
    | some p =>
      rw [hv] at hf
      rw [hget, hv]
      simp [strOrEmpty, hf]

/-- Witness for C8: a truthy string ID is kept verbatim. -/
theorem participants_string_coercion_witness :
    Doc.get (cleanParticipantDoc [("ID", Prim.vStr "x")]) "ID" = some (.vStr "x") := by
  obtain ⟨p, hp, hc⟩ :=
    (participants_string_coercion [] [("ID", Prim.vStr "x")] "ID" (by decide)).2.1 (by decide)
  have hx : Doc.get [("ID", Prim.vStr "x")] "ID" = some (Prim.vStr "x") := by decide
  rw [hx] at hp
  obtain rfl : Prim.vStr "x" = p := Option.some.inj hp
  simpa [primToString] using hc

/-- Counterexample to C8 as stated: an ID field present with the number 0
(falsy) comes out as the empty string, not as its string coercion `0`, so
string coercion with an absent-only default does not describe the code. -/
theorem participants_falsy_field_counterexample :
    Doc.get [("ID", Prim.vNum 0)] "ID" = some (.vNum 0) ∧
    primToString (.vNum 0) = "0" ∧
    Doc.get (cleanParticipantDoc [("ID", Prim.vNum 0)]) "ID" = some (.vStr "") ∧
    Prim.vStr "" ≠ Prim.vStr "0" := by
  refine ⟨by decide, by decide, by decide, by decide⟩

/-- C9: a document whose Entity field is missing or falsy is keyed under
`Unknown`; it belongs to the documents whose subtotal the `Unknown`
bucket holds, and its coerced amount also contributes to totalAmount,
which sums over all documents. -/
theorem leverages_unknown_bucket (docs : List Doc) (d : Doc)
    (hd : d ∈ docs) (hf : truthy (Doc.get d "Entity") = false) :
    entKey d = "Unknown" ∧
    d ∈ docs.filter (fun d' => entKey d' = "Unknown") ∧
    (EntityMap.get (leverageStats docs).byEntity "Unknown").getD 0
      = ((docs.filter (fun d' => entKey d' = "Unknown")).map amountOf).sum ∧
    (leverageStats docs).totalAmount = (docs.map amountOf).sum := by
  have hk : entKey d = "Unknown" := by
    simp [entKey, entityOf, jsOr, hf, primToString]
  refine ⟨hk, ?_, ?_, ?_⟩
  · simpa [List.mem_filter, hk] using hd
  · simpa [leverageStats, EntityMap.get] using leverage_foldl_byEntity docs ⟨[], 0⟩ "Unknown"
  · simpa [leverageStats] using leverage_foldl_total docs ⟨[], 0⟩

/-- Witness for C9: a single document with amount 3 and no Entity field
lands in the `Unknown` bucket. -/
theorem leverages_unknown_bucket_witness :
    entKey [("Amount", Prim.vNum 3)] = "Unknown" ∧
    (EntityMap.get (leverageStats [[("Amount", Prim.vNum 3)]]).byEntity "Unknown").getD 0
      = (([[("Amount", Prim.vNum 3)]] : List Doc).filter
          (fun d' => entKey d' = "Unknown") |>.map amountOf).sum :=
  ⟨(leverages_unknown_bucket [[("Amount", Prim.vNum 3)]] [("Amount", Prim.vNum 3)]
      (by decide) (by decide)).1,
   (leverages_unknown_bucket [[("Amount", Prim.vNum 3)]] [("Amount", Prim.vNum 3)]
      (by decide) (by decide)).2.2.1⟩

/-- C10: the participants, a2f and a2m cleaning maps change only the
designated fields — any other field reads the same in the cleaned
document as in the stored one. -/
theorem coercion_frame (item : Doc) (k : String) :
    (k ∉ participantFields → Doc.get (cleanParticipantDoc item) k = Doc.get item k) ∧
    (k ∉ a2fFields → Doc.get (cleanA2FDoc item) k = Doc.get item k) ∧
    (k ∉ a2mFields → Doc.get (cleanA2MDoc item) k = Doc.get item k) :=
  ⟨fun hk => get_setFields_not_mem participantFields _ item k hk,
   fun hk => get_setFields_not_mem a2fFields _ item k hk,
   fun hk => get_setFields_not_mem a2mFields _ item k hk⟩

/-- Witness for C10: a field named Other, designated by none of the three
routes, passes through all three cleaners untouched. -/
theorem coercion_frame_witness :
    Doc.get (cleanParticipantDoc [("Other", Prim.vNull)]) "Other" = some Prim.vNull ∧
    Doc.get (cleanA2FDoc [("Other", Prim.vNull)]) "Other" = some Prim.vNull ∧
    Doc.get (cleanA2MDoc [("Other", Prim.vNull)]) "Other" = some Prim.vNull :=
  ⟨((coercion_frame [("Other", Prim.vNull)] "Other").1 (by decide)).trans (by decide),
   ((coercion_frame [("Other", Prim.vNull)] "Other").2.1 (by decide)).trans (by decide),
   ((coercion_frame [("Other", Prim.vNull)] "Other").2.2 (by decide)).trans (by decide)⟩

end Misconnect
